import Mathlib

/-!
# Verification of the astroNN data-preparation toolkit

Shallow embedding of the repository's four source files:

* `astroNN/nn/losses.py`        — magic-number-aware loss functions,
* `astroNN/gaia/downloader.py`  — Gaia TGAS / Gaia-source downloader,
* `astroNN/gaiatools/downloader.py` — legacy APOGEE downloader,
* `astroNN/datasets/h5.py`      — the H5 dataset compiler.

Numeric tensor values are embedded as rationals (the claims under test
involve only exact arithmetic), except for the numerical-stability claim
about `logsumexp` which is stated over the reals.  Stateful download code
is embedded as explicit state passing over an abstract file-system record,
with Python's unbounded recursion made total by a fuel parameter; running
out of fuel is reported as a distinguished `recursionError` which none of
the theorems rely on.  Fallible code returns `Except`.
-/

/-- Python exception kinds observable in the embedded code. -/
inductive PyErr where
  | valueError
  | nameError
  | typeError
  | recursionError
  deriving DecidableEq, Repr

/-! ## Loss library (`astroNN/nn/losses.py`) -/

/-- Modelled from the spec: `MAGIC_NUMBER` (imported by `losses.py` from the
`astroNN` package root, which is outside the given sources) is the reserved
sentinel numeric value marking an absent label; the spec's data model fixes
the measured-value sentinel at −9999. -/
def MAGIC_NUMBER : ℚ := -9999

/-- Mean of a list, `tf.reduce_mean` along the last axis for one sample. -/
def listMean (l : List ℚ) : ℚ := l.sum / l.length

/-- Modelled from the spec: `magic_correction_term` (imported by `losses.py`
from `astroNN.nn`, outside the given sources).  Per sample it returns the
ratio of total label slots to the count of non-sentinel label slots along
the last dimension, with a safeguard against division by zero when every
slot is the sentinel (the safeguard's value is not specified; the claims
under test never hit it). -/
def magic_correction_term (y_true : List ℚ) : ℚ :=
  let total : ℚ := y_true.length
  let present : ℚ := (y_true.filter (fun v => decide (v ≠ MAGIC_NUMBER))).length
  if present = 0 then 1 else total / present

/-- `losses.py` line 43: `mean_squared_error(y_true, y_pred)` for one sample:
`tf.where(tf.equal(y_true, MAGIC_NUMBER), 0, (y_true - y_pred)^2)`, mean over
the last axis, times the magic correction term. -/
def mean_squared_error (y_true y_pred : List ℚ) : ℚ :=
  listMean (List.zipWith
    (fun t p => if t = MAGIC_NUMBER then 0 else (t - p) ^ 2) y_true y_pred)
    * magic_correction_term y_true

/-- Keyword-binding check for a Python call: every keyword must name a
declared parameter, and the required (first `numRequired`) parameters must
all be bound by the `npos` positional arguments or by keywords. -/
def pyCallOk (params : List String) (numRequired npos : Nat) (kwargs : List String) : Bool :=
  decide (npos ≤ params.length) &&
  kwargs.all (fun k => params.contains k) &&
  decide (numRequired ≤ npos +
    (kwargs.filter (fun k => (params.take numRequired).contains k)).length)

/-- The parameters of `tf.maximum`, the element-wise binary maximum:
`maximum(x, y, name=None)`.  It is not a reduction and accepts no `axis` or
`keepdims` keyword. -/
def tf_maximum_params : List String := ["x", "y", "name"]

/-- The call `tf.maximum(x, axis=axis, keepdims=True)` made at `losses.py`
line 39: one positional argument plus the keywords `axis` and `keepdims`,
neither of which is a parameter of `tf.maximum`, so Python raises a
`TypeError` before any tensor computation.  (The `ok` branch is unreachable;
its value is irrelevant.) -/
def tf_maximum_axis_call (x : List ℝ) : Except PyErr (List ℝ) :=
  if pyCallOk tf_maximum_params 2 1 ["axis", "keepdims"] then .ok x
  else .error .typeError

/-- `losses.py` line 28: `logsumexp(x, axis)` as written in the source for a
one-dimensional input: first evaluates `tf.maximum(x, axis=axis,
keepdims=True)`, then would take `log(sum(exp(x - x_max))) + x_max`. -/
noncomputable def logsumexp (x : List ℝ) : Except PyErr ℝ := do
  let xmax ← tf_maximum_axis_call x
  let m := xmax.foldr max 0
  return Real.log ((x.map (fun t => Real.exp (t - m))).sum) + m

/-- Follows the spec's words (§4.10): `logsumexp(x, axis)` is the numerically
stable `log(sum(exp(x − max(x)))) + max(x)` with max and sum along the axis,
here for a one-dimensional input. -/
noncomputable def logsumexpIntended (x : List ℝ) : ℝ :=
  let m := match x with
    | [] => 0
    | a :: t => t.foldl max a
  Real.log ((x.map (fun t => Real.exp (t - m))).sum) + m

/-! ## Index-set utilities shared by the filter code

Both `H5Compiler.filter_apogeeid_list` and `tgas_load` build sorted index
sets with `np.where` over boolean masks and intersect them with
`np.intersect1d`; `whereIdx` and `idxIntersect` embed those two numpy
operations on index lists that are sorted subsequences of `range n`. -/

/-- `np.where(mask)[0]`: the sorted list of indices `i < n` satisfying `p`. -/
def whereIdx (n : Nat) (p : Nat → Bool) : List Nat :=
  (List.range n).filter p

/-- `np.intersect1d a b` for sorted duplicate-free `a`: the elements of `a`
that also occur in `b`, in order. -/
def idxIntersect (a b : List Nat) : List Nat :=
  a.filter (fun i => b.contains i)

/-! ## The allStar catalog row and quality filter (`h5.py` lines 60-101) -/

/-- One row of the APOGEE allStar catalog, with exactly the fields the given
sources read: `RA`, `DEC`, `SNR`, `VSCATTER`, `K`, `STARFLAG`, `ASPCAPFLAG`,
`LOCATION_ID`, `NVISITS`, the `PARAM` vector, the diagonal of `PARAM_COV`,
and the `X_H` / `X_H_ERR` vectors (indexed fields embedded as functions from
the column index). -/
structure AllStarRow where
  ra : ℚ
  dec : ℚ
  snr : ℚ
  vscatter : ℚ
  kmag : ℚ
  starflag : Nat
  aspcapflag : Nat
  location_id : Int
  nvisits : Nat
  param : Nat → ℚ
  param_cov : Nat → ℚ
  xh : Nat → ℚ
  xh_err : Nat → ℚ

instance : Inhabited AllStarRow :=
  ⟨⟨0, 0, 0, 0, 0, 0, 0, 0, 0, fun _ => 0, fun _ => 0, fun _ => 0, fun _ => 0⟩⟩

/-- The settable configuration of `H5Compiler` used by
`filter_apogeeid_list` (`h5.py` lines 36-43). -/
structure H5Config where
  starflagcut : Bool
  aspcapflagcut : Bool
  vscattercut : ℚ
  teff_high : ℚ
  teff_low : ℚ
  SNR_low : ℚ
  SNR_high : ℚ
  ironlow : ℚ

/-- The `H5Compiler` defaults (`h5.py` lines 36-43). -/
def defaultH5Config : H5Config :=
  { starflagcut := true, aspcapflagcut := true, vscattercut := 1,
    teff_high := 5500, teff_low := 4000, SNR_low := 200, SNR_high := 99999,
    ironlow := -3 }

/-- `H5Compiler.filter_apogeeid_list` (`h5.py` lines 60-101): eleven index
sets — `STARFLAG == 0` (or all rows when `starflagcut` is off),
`ASPCAPFLAG == 0` (or all rows), `teff_low <= teff`, `teff_high >= teff`,
`vscatter < vscattercut`, `Fe > ironlow` (Fe read from `X_H[:, 17]`),
`logg != -9999`, `SNR > SNR_low`, `SNR < SNR_high`, `K != -9999`,
`location_id > 1` — reduced by `np.intersect1d` in the source's order
`(starflag, aspcapflag, temp_lower, vscatter, Fe, logg, snrlow, snrhigh,
location, temp_upper, K)`. -/
def filter_apogeeid_list (cfg : H5Config) (cat : List AllStarRow) : List Nat :=
  let n := cat.length
  let row := fun i => cat.getD i default
  let f_starflag := if cfg.starflagcut then
    whereIdx n (fun i => (row i).starflag == 0) else List.range n
  let f_aspcapflag := if cfg.aspcapflagcut then
    whereIdx n (fun i => (row i).aspcapflag == 0) else List.range n
  let f_temp_lower := whereIdx n (fun i => decide (cfg.teff_low ≤ (row i).param 0))
  let f_temp_upper := whereIdx n (fun i => decide (cfg.teff_high ≥ (row i).param 0))
  let f_vscatter := whereIdx n (fun i => decide ((row i).vscatter < cfg.vscattercut))
  let f_fe := whereIdx n (fun i => decide ((row i).xh 17 > cfg.ironlow))
  let f_logg := whereIdx n (fun i => decide ((row i).param 1 ≠ -9999))
  let f_snrlow := whereIdx n (fun i => decide ((row i).snr > cfg.SNR_low))
  let f_snrhigh := whereIdx n (fun i => decide ((row i).snr < cfg.SNR_high))
  let f_k := whereIdx n (fun i => decide ((row i).kmag ≠ -9999))
  let f_location := whereIdx n (fun i => decide ((row i).location_id > 1))
  idxIntersect (idxIntersect (idxIntersect (idxIntersect (idxIntersect
    (idxIntersect (idxIntersect (idxIntersect (idxIntersect
      (idxIntersect f_starflag f_aspcapflag) f_temp_lower) f_vscatter)
        f_fe) f_logg) f_snrlow) f_snrhigh) f_location) f_temp_upper) f_k

/-- The nine always-applied masks of `filter_apogeeid_list`, conjoined in
the order they enter the source's `reduce(np.intersect1d, ...)` chain; this
is what the filter computes when both toggleable criteria are disabled. -/
def alwaysOnMask (cfg : H5Config) (cat : List AllStarRow) (i : Nat) : Bool :=
  let r := cat.getD i default
  decide (cfg.teff_low ≤ r.param 0) && decide (r.vscatter < cfg.vscattercut) &&
  decide (r.xh 17 > cfg.ironlow) && decide (r.param 1 ≠ -9999) &&
  decide (r.snr > cfg.SNR_low) && decide (r.snr < cfg.SNR_high) &&
  decide (r.location_id > 1) && decide (cfg.teff_high ≥ r.param 0) &&
  decide (r.kmag ≠ -9999)

/-! ## TGAS row loading and filtering (`gaia/downloader.py` lines 88-137) -/

/-- One row of the concatenated TGAS catalog: the seven columns `tgas_load`
reads (`RA`, `DEC`, `PMRA`, `PMDEC`, `parallax`, `parallax_error`,
`phot_g_mean_mag`). -/
structure TgasRow where
  ra : ℚ
  dec : ℚ
  pmra : ℚ
  pmdec : ℚ
  parallax : ℚ
  parallax_error : ℚ
  gmag : ℚ
  deriving DecidableEq

instance : Inhabited TgasRow := ⟨⟨0, 0, 0, 0, 0, 0, 0⟩⟩

/-- The `filter=True` branch of `tgas_load` (`gaia/downloader.py` lines
123-134), applied to the unfiltered file-order concatenation `rows`:
`np.where(parallax_error / parallax < 0.2)` intersected with
`np.where(parallax > 0)` by `reduce(np.intersect1d, ...)`, then each column
indexed by the resulting index set. -/
def tgas_load_filtered (rows : List TgasRow) : List TgasRow :=
  let n := rows.length
  let r := fun i => rows.getD i default
  let filtered_err_idx := whereIdx n (fun i => decide ((r i).parallax_error / (r i).parallax < 1/5))
  let filtered_neg_idx := whereIdx n (fun i => decide ((r i).parallax > 0))
  let filtered_index := idxIntersect filtered_err_idx filtered_neg_idx
  filtered_index.map r

/-! ## Gaia downloader (`gaia/downloader.py`)

The local cache is an abstract file system keyed by file name.  Checksums
and manifest entries are abstract `Nat` hashes.  `manifest` is the content
of the `MD5SUM.txt` manifest (as consulted after the function has ensured
the manifest file is present); `manifestPresent` records whether the
manifest file already existed, which only determines whether one extra
download occurs.  A download makes the network copy the local copy. -/

structure GaiaFS where
  present : String → Bool
  diskHash : String → Nat
  netHash : String → Nat
  manifest : String → Option Nat
  manifestPresent : Bool

/-- The result of a downloader call: the Python outcome (a raised exception
or the returned file list), the final file-system state, and the number of
`urllib.request.urlretrieve` calls performed. -/
abbrev DlResult := Except PyErr (List String) × GaiaFS × Nat

/-- The condition `checksum != file_hash and len(file_hash) != 0` of
`gaia/downloader.py` lines 62/76: a mismatch is detected only when a
manifest entry for the file exists. -/
def hashMismatch (checksum : Nat) (file_hash : Option Nat) : Bool :=
  match file_hash with
  | some h => checksum != h
  | none => false

/-- The state threaded through the per-file loop: the file system, the
current value of the Python local variable `file_hash` (`none` while still
unassigned), the `fulllist` accumulator, and the running count of
`urlretrieve` calls. -/
structure LoopState where
  fs : GaiaFS
  fhv : Option (Option Nat)
  acc : List String
  dls : Nat

/-- The per-file loop shared (textually duplicated) by `tgas` (lines 52-81)
and `gaia_source` (lines 173-232) of `gaia/downloader.py`.  `restart` is the
recursive top-level re-invocation `tgas(dr=dr, flag=1)` /
`gaia_source(dr=dr, flag=1)` made on checksum mismatch.

If the file exists and no redo flag is set, its checksum is compared to the
freshly looked-up manifest entry, and a mismatch triggers the restart.
Otherwise (file absent, or redo flag set) the file is downloaded and its
checksum compared against whatever `file_hash` currently holds — reading it
raises `NameError` when no earlier iteration took the cached branch.  `bug`
distinguishes `gaia_source`, whose post-download success report
`print('...') % (...)` applies `%` to `None` and therefore raises
`TypeError` (lines 200-201 / 230-231); `tgas` formats correctly (line 79).
Either way the file name is appended to `fulllist` after the branch. -/
def dlLoop (bug : Bool) (restart : GaiaFS → DlResult) (flag : Option Nat) :
    List String → LoopState → DlResult
  | [], s => (.ok s.acc, s.fs, s.dls)
  | fname :: rest, s =>
    if s.fs.present fname = true ∧ flag = none then
      let checksum := s.fs.diskHash fname
      let fh := s.fs.manifest fname
      if hashMismatch checksum fh then
        match restart s.fs with
        | (.error e, fs2, d2) => (.error e, fs2, s.dls + d2)
        | (.ok _, fs2, d2) =>
          dlLoop bug restart flag rest ⟨fs2, some fh, s.acc ++ [fname], s.dls + d2⟩
      else
        dlLoop bug restart flag rest ⟨s.fs, some fh, s.acc ++ [fname], s.dls⟩
    else if s.fs.present fname = false ∨ flag = some 1 then
      let fs2 : GaiaFS := { s.fs with
        present := Function.update s.fs.present fname true,
        diskHash := Function.update s.fs.diskHash fname (s.fs.netHash fname) }
      let checksum := fs2.diskHash fname
      match s.fhv with
      | none => (.error .nameError, fs2, s.dls + 1)
      | some fh =>
        if hashMismatch checksum fh then
          match restart fs2 with
          | (.error e, fs3, d3) => (.error e, fs3, s.dls + 1 + d3)
          | (.ok _, fs3, d3) =>
            if bug then (.error .typeError, fs3, s.dls + 1 + d3)
            else dlLoop bug restart flag rest ⟨fs3, s.fhv, s.acc ++ [fname], s.dls + 1 + d3⟩
        else
          if bug then (.error .typeError, fs2, s.dls + 1)
          else dlLoop bug restart flag rest ⟨fs2, s.fhv, s.acc ++ [fname], s.dls + 1⟩
    else
      dlLoop bug restart flag rest ⟨s.fs, s.fhv, s.acc ++ [fname], s.dls⟩

/-- The common body of `tgas` / `gaia_source`: for any data release other
than 1 raise `ValueError` before touching the network or disk; otherwise
ensure the `MD5SUM.txt` manifest file is present (downloading it once if
not) and run the per-file loop over the full target list with `fulllist`
initially empty and `file_hash` still unassigned.  The fuel parameter
bounds the depth of the mismatch-restart recursion, which Python leaves
unbounded; each restart level re-runs the whole call with `flag=1`. -/
def dlRun (bug : Bool) (files : List String) (fuel : Nat) (fs : GaiaFS)
    (dr flag : Option Nat) : DlResult :=
  if dr.getD 1 = 1 then
    match fuel with
    | 0 => (.error .recursionError, fs, 0)
    | fuel1 + 1 =>
      let fs1 := if fs.manifestPresent then fs else { fs with manifestPresent := true }
      let d1 := if fs.manifestPresent then 0 else 1
      dlLoop bug (fun g => dlRun bug files fuel1 g (some 1) (some 1)) flag files
        { fs := fs1, fhv := none, acc := [], dls := d1 }
  else
    (.error .valueError, fs, 0)

/-- Two-decimal-digit rendering used by the format string
`TgasSource_000-000-0{:02d}.fits`. -/
def twoDigit (n : Nat) : String :=
  if n < 10 then "0" ++ toString n else toString n

/-- Three-decimal-digit rendering used by `GaiaSource_000-0{:02d}-{:03d}.fits`. -/
def threeDigit (n : Nat) : String :=
  if n < 10 then "00" ++ toString n else if n < 100 then "0" ++ toString n
  else toString n

/-- `'TgasSource_000-000-0{:02d}.fits'.format(i)` (`gaia/downloader.py`
line 53). -/
def tgasFilename (i : Nat) : String :=
  "TgasSource_000-000-0" ++ twoDigit i ++ ".fits"

/-- The 16 TGAS target files, in the loop order `i = 0..15`. -/
def tgasFilenames : List String :=
  (List.range 16).map tgasFilename

/-- `'GaiaSource_000-0{:02d}-{:03d}.fits'.format(j, i)`
(`gaia/downloader.py` line 175; the literal `'GaiaSource_000-020-{:03d}'` of
line 205 is the same rendering at `j = 20`). -/
def gaiaSourceFilename (j i : Nat) : String :=
  "GaiaSource_000-0" ++ twoDigit j ++ "-" ++ threeDigit i ++ ".fits"

/-- The 5231 Gaia-source target files: `j = 0..19` with `i = 0..255`, then
`j = 20` with `i = 0..110`, in loop order. -/
def gaiaSourceFilenames : List String :=
  ((List.range 20).flatMap (fun j => (List.range 256).map (gaiaSourceFilename j))) ++
    (List.range 111).map (gaiaSourceFilename 20)

/-- `astroNN.gaia.downloader.tgas(dr, flag)` (`gaia/downloader.py` lines
19-85). -/
def gaiaTgas (fuel : Nat) (fs : GaiaFS) (dr flag : Option Nat) : DlResult :=
  dlRun false tgasFilenames fuel fs dr flag

/-- `astroNN.gaia.downloader.gaia_source(dr, flag)` (`gaia/downloader.py`
lines 140-237). -/
def gaiaSource (fuel : Nat) (fs : GaiaFS) (dr flag : Option Nat) : DlResult :=
  dlRun true gaiaSourceFilenames fuel fs dr flag

/-! ## Legacy APOGEE downloader (`gaiatools/downloader.py`) -/

/-- `astroNN.gaiatools.downloader.tgas(dr)` (lines 36-59): despite its name
it downloads the APOGEE allStar catalog; `dr` defaults to 14, only 13 and 14
are mapped to URLs, anything else raises `ValueError` before any network
access.  The result pairs the Python outcome with the list of URLs passed
to `urllib.request.urlretrieve`. -/
def legacyTgas (dr : Option Nat) : Except PyErr Unit × List String :=
  let d := dr.getD 14
  if d = 13 then
    (.ok (), ["https://data.sdss.org/sas/dr13/apogee/spectro/redux/r6/stars/l30e/l30e.2/allStar-l30e.2.fits"])
  else if d = 14 then
    (.ok (), ["https://data.sdss.org/sas/dr14/apogee/spectro/redux/r8/stars/l31c/l31c.2/allStar-l31c.2.fits"])
  else
    (.error .valueError, [])

/-- `astroNN.gaiatools.downloader.gaia_source(dr)` (lines 62-85): downloads
the APOGEE allVisit catalog with the same `dr` mapping. -/
def legacyGaiaSource (dr : Option Nat) : Except PyErr Unit × List String :=
  let d := dr.getD 14
  if d = 13 then
    (.ok (), ["https://data.sdss.org/sas/dr13/apogee/spectro/redux/r6/allVisit-l30e.2.fits"])
  else if d = 14 then
    (.ok (), ["https://data.sdss.org/sas/dr14/apogee/spectro/redux/r8/allVisit-l31c.2.fits"])
  else
    (.error .valueError, [])

/-! ## H5 dataset compiler (`h5.py` lines 106-455)

The 900,000-row fixed-capacity working arrays are embedded by their written
prefix: each buffer is the list of rows written so far and `counter` is the
write cursor `array_counter`, so the source's slice assignment
`arr[array_counter : array_counter + nvisits] = np.tile(v, nvisits)` becomes
appending `List.replicate nvisits v`, and the truncation `arr[0 : array_counter]`
becomes `List.take counter`.  (None of the claims under test concerns the
unchecked capacity overflow, which the spec flags separately.) -/

/-- The working arrays of `H5Compiler.compile` (`h5.py` lines 117-186),
one field per source variable, plus the write cursor `array_counter`. -/
structure H5Buffers where
  spec : List (List ℚ)
  spec_err : List (List ℚ)
  RA : List ℚ
  DEC : List ℚ
  SNR : List ℚ
  individual_flag : List ℚ
  teff : List ℚ
  logg : List ℚ
  MH : List ℚ
  alpha_M : List ℚ
  C : List ℚ
  C1 : List ℚ
  N : List ℚ
  O : List ℚ
  Na : List ℚ
  Mg : List ℚ
  Al : List ℚ
  Si : List ℚ
  P : List ℚ
  S : List ℚ
  K : List ℚ
  Ca : List ℚ
  Ti : List ℚ
  Ti2 : List ℚ
  V : List ℚ
  Cr : List ℚ
  Mn : List ℚ
  Fe : List ℚ
  Ni : List ℚ
  Cu : List ℚ
  Ge : List ℚ
  Rb : List ℚ
  Y : List ℚ
  Nd : List ℚ
  absmag : List ℚ
  teff_err : List ℚ
  logg_err : List ℚ
  MH_err : List ℚ
  alpha_M_err : List ℚ
  C_err : List ℚ
  C1_err : List ℚ
  N_err : List ℚ
  O_err : List ℚ
  Na_err : List ℚ
  Mg_err : List ℚ
  Al_err : List ℚ
  Si_err : List ℚ
  P_err : List ℚ
  S_err : List ℚ
  K_err : List ℚ
  Ca_err : List ℚ
  Ti_err : List ℚ
  Ti2_err : List ℚ
  V_err : List ℚ
  Cr_err : List ℚ
  Mn_err : List ℚ
  Fe_err : List ℚ
  Ni_err : List ℚ
  Cu_err : List ℚ
  Ge_err : List ℚ
  Rb_err : List ℚ
  Y_err : List ℚ
  Nd_err : List ℚ
  absmag_err : List ℚ
  counter : Nat

/-- All buffers empty, `array_counter = 0` (the freshly allocated state of
`h5.py` lines 117-186 restricted to the written prefixes). -/
def initBuffers : H5Buffers :=
  { spec := [], spec_err := [], RA := [], DEC := [], SNR := [],
    individual_flag := [], teff := [], logg := [], MH := [], alpha_M := [],
    C := [], C1 := [], N := [], O := [], Na := [], Mg := [], Al := [],
    Si := [], P := [], S := [], K := [], Ca := [], Ti := [], Ti2 := [],
    V := [], Cr := [], Mn := [], Fe := [], Ni := [], Cu := [], Ge := [],
    Rb := [], Y := [], Nd := [], absmag := [], teff_err := [],
    logg_err := [], MH_err := [], alpha_M_err := [], C_err := [],
    C1_err := [], N_err := [], O_err := [], Na_err := [], Mg_err := [],
    Al_err := [], Si_err := [], P_err := [], S_err := [], K_err := [],
    Ca_err := [], Ti_err := [], Ti2_err := [], V_err := [], Cr_err := [],
    Mn_err := [], Fe_err := [], Ni_err := [], Cu_err := [], Ge_err := [],
    Rb_err := [], Y_err := [], Nd_err := [], absmag_err := [], counter := 0 }

/-- The outcome of the spectrum retrieval for one star (`h5.py` lines
195-219): the warning flag signalled by `combined_spectra` / `visit_spectra`
(the functions themselves belong to `astroNN.apogee.downloader`, outside the
given sources), the `NVISITS` apstar-header value read in the continuum
path, and the processed flux / flux-error rows `_spec` / `_spec_err` as they
stand after gap deletion (and continuum normalization in the continuum
path); the processing utilities `gap_delete` / `continuum` are also external
to the given sources, so their output rows are taken as given. -/
structure SpectraFetch where
  warning : Bool
  nvisits_header : Nat
  rows : List (List ℚ)
  err_rows : List (List ℚ)

/-- The visit-row count the compiler uses for one star (`h5.py` lines
189, 208-215): 1 when continuum normalization is off; in the continuum path
the apstar `NVISITS` header value when it is 1, else that value plus one
(the source both drops the file's first stacked row and increments the
counter — the quirk the spec's §9 flags). -/
def starNVisits (continuum : Bool) (sd : SpectraFetch) : Nat :=
  if continuum then (if sd.nvisits_header = 1 then 1 else sd.nvisits_header + 1)
  else 1

/-- One iteration of the main star loop (`h5.py` lines 188-292) in terms of
its effect on the working arrays: when the retrieval warning flag is unset,
write the spectra block, set `in_flag` 0 for the first row and 1 for the
rest (lines 222-226), broadcast every catalog scalar with
`np.tile(value, nvisits)` (lines 229-290) — `Mn` reads `X_H[:, 15]`, the
same index as `Cr`, and `absmag`/`absmag_err` are tiled with the −9999
placeholder — and advance `array_counter` by `nvisits`; a star whose
retrieval signalled a warning writes nothing. -/
def compileStep (continuum : Bool) (st : H5Buffers) (row : AllStarRow)
    (sd : SpectraFetch) : H5Buffers :=
  let nvisits := starNVisits continuum sd
  if sd.warning then st
  else
    { st with
      individual_flag := st.individual_flag ++
        (if nvisits = 1 then [(0 : ℚ)] else (0 : ℚ) :: List.replicate (nvisits - 1) 1),
      spec := st.spec ++ sd.rows,
      spec_err := st.spec_err ++ sd.err_rows,
      SNR := st.SNR ++ List.replicate nvisits row.snr,
      RA := st.RA ++ List.replicate nvisits row.ra,
      DEC := st.DEC ++ List.replicate nvisits row.dec,
      teff := st.teff ++ List.replicate nvisits (row.param 0),
      logg := st.logg ++ List.replicate nvisits (row.param 1),
      MH := st.MH ++ List.replicate nvisits (row.param 3),
      alpha_M := st.alpha_M ++ List.replicate nvisits (row.param 6),
      C := st.C ++ List.replicate nvisits (row.xh 0),
      C1 := st.C1 ++ List.replicate nvisits (row.xh 1),
      N := st.N ++ List.replicate nvisits (row.xh 2),
      O := st.O ++ List.replicate nvisits (row.xh 3),
      Na := st.Na ++ List.replicate nvisits (row.xh 4),
      Mg := st.Mg ++ List.replicate nvisits (row.xh 5),
      Al := st.Al ++ List.replicate nvisits (row.xh 6),
      Si := st.Si ++ List.replicate nvisits (row.xh 7),
      P := st.P ++ List.replicate nvisits (row.xh 8),
      S := st.S ++ List.replicate nvisits (row.xh 9),
      K := st.K ++ List.replicate nvisits (row.xh 10),
      Ca := st.Ca ++ List.replicate nvisits (row.xh 11),
      Ti := st.Ti ++ List.replicate nvisits (row.xh 12),
      Ti2 := st.Ti2 ++ List.replicate nvisits (row.xh 13),
      V := st.V ++ List.replicate nvisits (row.xh 14),
      Cr := st.Cr ++ List.replicate nvisits (row.xh 15),
      Mn := st.Mn ++ List.replicate nvisits (row.xh 15),
      Fe := st.Fe ++ List.replicate nvisits (row.xh 16),
      Ni := st.Ni ++ List.replicate nvisits (row.xh 17),
      Cu := st.Cu ++ List.replicate nvisits (row.xh 19),
      Ge := st.Ge ++ List.replicate nvisits (row.xh 20),
      Rb := st.Rb ++ List.replicate nvisits (row.xh 22),
      Y := st.Y ++ List.replicate nvisits (row.xh 23),
      Nd := st.Nd ++ List.replicate nvisits (row.xh 24),
      absmag := st.absmag ++ List.replicate nvisits (-9999),
      teff_err := st.teff_err ++ List.replicate nvisits (row.param_cov 0),
      logg_err := st.logg_err ++ List.replicate nvisits (row.param_cov 1),
      MH_err := st.MH_err ++ List.replicate nvisits (row.param_cov 3),
      alpha_M_err := st.alpha_M_err ++ List.replicate nvisits (row.param_cov 6),
      C_err := st.C_err ++ List.replicate nvisits (row.xh_err 0),
      C1_err := st.C1_err ++ List.replicate nvisits (row.xh_err 1),
      N_err := st.N_err ++ List.replicate nvisits (row.xh_err 2),
      O_err := st.O_err ++ List.replicate nvisits (row.xh_err 3),
      Na_err := st.Na_err ++ List.replicate nvisits (row.xh_err 4),
      Mg_err := st.Mg_err ++ List.replicate nvisits (row.xh_err 5),
      Al_err := st.Al_err ++ List.replicate nvisits (row.xh_err 6),
      Si_err := st.Si_err ++ List.replicate nvisits (row.xh_err 7),
      P_err := st.P_err ++ List.replicate nvisits (row.xh_err 8),
      S_err := st.S_err ++ List.replicate nvisits (row.xh_err 9),
      K_err := st.K_err ++ List.replicate nvisits (row.xh_err 10),
      Ca_err := st.Ca_err ++ List.replicate nvisits (row.xh_err 11),
      Ti_err := st.Ti_err ++ List.replicate nvisits (row.xh_err 12),
      Ti2_err := st.Ti2_err ++ List.replicate nvisits (row.xh_err 13),
      V_err := st.V_err ++ List.replicate nvisits (row.xh_err 14),
      Cr_err := st.Cr_err ++ List.replicate nvisits (row.xh_err 15),
      Mn_err := st.Mn_err ++ List.replicate nvisits (row.xh_err 15),
      Fe_err := st.Fe_err ++ List.replicate nvisits (row.xh_err 16),
      Ni_err := st.Ni_err ++ List.replicate nvisits (row.xh_err 17),
      Cu_err := st.Cu_err ++ List.replicate nvisits (row.xh_err 19),
      Ge_err := st.Ge_err ++ List.replicate nvisits (row.xh_err 20),
      Rb_err := st.Rb_err ++ List.replicate nvisits (row.xh_err 22),
      Y_err := st.Y_err ++ List.replicate nvisits (row.xh_err 23),
      Nd_err := st.Nd_err ++ List.replicate nvisits (row.xh_err 24),
      absmag_err := st.absmag_err ++ List.replicate nvisits (-9999),
      counter := st.counter + nvisits }

/-- The full star loop: fold `compileStep` over the filtered stars, each
paired with its spectrum-retrieval outcome. -/
def compileLoop (continuum : Bool) (stars : List (AllStarRow × SpectraFetch)) : H5Buffers :=
  stars.foldl (fun st rs => compileStep continuum st rs.1 rs.2) initBuffers

/-- The first half of the truncation block (`h5.py` lines 294-328): every
non-error array is cut to the written row count `array_counter`. -/
def truncateValues (st : H5Buffers) : H5Buffers :=
  { st with
    spec := st.spec.take st.counter,
    spec_err := st.spec_err.take st.counter,
    individual_flag := st.individual_flag.take st.counter,
    RA := st.RA.take st.counter,
    DEC := st.DEC.take st.counter,
    SNR := st.SNR.take st.counter,
    teff := st.teff.take st.counter,
    logg := st.logg.take st.counter,
    MH := st.MH.take st.counter,
    alpha_M := st.alpha_M.take st.counter,
    C := st.C.take st.counter,
    C1 := st.C1.take st.counter,
    N := st.N.take st.counter,
    O := st.O.take st.counter,
    Na := st.Na.take st.counter,
    Mg := st.Mg.take st.counter,
    Al := st.Al.take st.counter,
    Si := st.Si.take st.counter,
    P := st.P.take st.counter,
    S := st.S.take st.counter,
    K := st.K.take st.counter,
    Ca := st.Ca.take st.counter,
    Ti := st.Ti.take st.counter,
    Ti2 := st.Ti2.take st.counter,
    V := st.V.take st.counter,
    Cr := st.Cr.take st.counter,
    Mn := st.Mn.take st.counter,
    Fe := st.Fe.take st.counter,
    Ni := st.Ni.take st.counter,
    Cu := st.Cu.take st.counter,
    Ge := st.Ge.take st.counter,
    Rb := st.Rb.take st.counter,
    Y := st.Y.take st.counter,
    Nd := st.Nd.take st.counter,
    absmag := st.absmag.take st.counter }

/-- The second half of the truncation block (`h5.py` lines 330-358),
executed after `truncateValues`: every `_err` variable is reassigned from
the slice `value_array[0:array_counter]` of the corresponding NON-error
array (already truncated by the first half) — not from the `_err` buffer the
loop populated.  This is a verbatim transcription of the source. -/
def truncateErrs (st : H5Buffers) : H5Buffers :=
  { st with
    teff_err := st.teff.take st.counter,
    logg_err := st.logg.take st.counter,
    MH_err := st.MH.take st.counter,
    alpha_M_err := st.alpha_M.take st.counter,
    C_err := st.C.take st.counter,
    C1_err := st.C1.take st.counter,
    N_err := st.N.take st.counter,
    O_err := st.O.take st.counter,
    Na_err := st.Na.take st.counter,
    Mg_err := st.Mg.take st.counter,
    Al_err := st.Al.take st.counter,
    Si_err := st.Si.take st.counter,
    P_err := st.P.take st.counter,
    S_err := st.S.take st.counter,
    K_err := st.K.take st.counter,
    Ca_err := st.Ca.take st.counter,
    Ti_err := st.Ti.take st.counter,
    Ti2_err := st.Ti2.take st.counter,
    V_err := st.V.take st.counter,
    Cr_err := st.Cr.take st.counter,
    Mn_err := st.Mn.take st.counter,
    Fe_err := st.Fe.take st.counter,
    Ni_err := st.Ni.take st.counter,
    Cu_err := st.Cu.take st.counter,
    Ge_err := st.Ge.take st.counter,
    Rb_err := st.Rb.take st.counter,
    Y_err := st.Y.take st.counter,
    Nd_err := st.Nd.take st.counter,
    absmag_err := st.absmag.take st.counter }

/-- The complete truncation step of `compile`, lines 294-358 in source
order: value arrays first, then the error arrays from the value arrays. -/
def truncateBuffers (st : H5Buffers) : H5Buffers :=
  truncateErrs (truncateValues st)

/-- A dataset payload written by `h5f.create_dataset`: a 2-D float array,
a 1-D float array, or the 1-D integer `index` array. -/
inductive H5Column where
  | mat : List (List ℚ) → H5Column
  | vec : List ℚ → H5Column
  | ivec : List Nat → H5Column

/-- The archive write step (`h5.py` lines 384-452): the named datasets, in
`create_dataset` call order — `spectra`, `spectra_err`, `in_flag`, `index`
unconditionally, and unless `spectra_only` is set, the scalar datasets
(note the file names `M`/`alpha` for the variables `MH`/`alpha_M`). -/
def archiveDatasets (spectra_only : Bool) (r : H5Buffers) (indices : List Nat) :
    List (String × H5Column) :=
  [("spectra", .mat r.spec), ("spectra_err", .mat r.spec_err),
   ("in_flag", .vec r.individual_flag), ("index", .ivec indices)] ++
  (if spectra_only ≠ true then
    [("SNR", .vec r.SNR), ("RA", .vec r.RA), ("DEC", .vec r.DEC),
     ("teff", .vec r.teff), ("logg", .vec r.logg), ("M", .vec r.MH),
     ("alpha", .vec r.alpha_M), ("C", .vec r.C), ("C1", .vec r.C1),
     ("N", .vec r.N), ("O", .vec r.O), ("Na", .vec r.Na), ("Mg", .vec r.Mg),
     ("Al", .vec r.Al), ("Si", .vec r.Si), ("P", .vec r.P), ("S", .vec r.S),
     ("K", .vec r.K), ("Ca", .vec r.Ca), ("Ti", .vec r.Ti),
     ("Ti2", .vec r.Ti2), ("V", .vec r.V), ("Cr", .vec r.Cr),
     ("Mn", .vec r.Mn), ("Fe", .vec r.Fe), ("Ni", .vec r.Ni),
     ("Cu", .vec r.Cu), ("Ge", .vec r.Ge), ("Rb", .vec r.Rb),
     ("Y", .vec r.Y), ("Nd", .vec r.Nd), ("absmag", .vec r.absmag),
     ("teff_err", .vec r.teff_err), ("logg_err", .vec r.logg_err),
     ("M_err", .vec r.MH_err), ("alpha_err", .vec r.alpha_M_err),
     ("C_err", .vec r.C_err), ("C1_err", .vec r.C1_err),
     ("N_err", .vec r.N_err), ("O_err", .vec r.O_err),
     ("Na_err", .vec r.Na_err), ("Mg_err", .vec r.Mg_err),
     ("Al_err", .vec r.Al_err), ("Si_err", .vec r.Si_err),
     ("P_err", .vec r.P_err), ("S_err", .vec r.S_err),
     ("K_err", .vec r.K_err), ("Ca_err", .vec r.Ca_err),
     ("Ti_err", .vec r.Ti_err), ("Ti2_err", .vec r.Ti2_err),
     ("V_err", .vec r.V_err), ("Cr_err", .vec r.Cr_err),
     ("Mn_err", .vec r.Mn_err), ("Fe_err", .vec r.Fe_err),
     ("Ni_err", .vec r.Ni_err), ("Cu_err", .vec r.Cu_err),
     ("Ge_err", .vec r.Ge_err), ("Rb_err", .vec r.Rb_err),
     ("Y_err", .vec r.Y_err), ("Nd_err", .vec r.Nd_err),
     ("absmag_err", .vec r.absmag_err)]
  else [])

/-- The four datasets written unconditionally (`h5.py` lines 385-388). -/
def unconditionalDatasetNames : List String :=
  ["spectra", "spectra_err", "in_flag", "index"]

/-- All dataset names written when `spectra_only` is false (`h5.py` lines
385-452), in `create_dataset` call order: the 4 unconditional datasets,
`SNR`/`RA`/`DEC`, the 29 scalar quantities (the 28 stellar/elemental
quantities plus `absmag`), and their 29 `_err` counterparts — 65 in all. -/
def allDatasetNames : List String :=
  unconditionalDatasetNames ++
  ["SNR", "RA", "DEC",
   "teff", "logg", "M", "alpha", "C", "C1", "N", "O", "Na", "Mg", "Al",
   "Si", "P", "S", "K", "Ca", "Ti", "Ti2", "V", "Cr", "Mn", "Fe", "Ni",
   "Cu", "Ge", "Rb", "Y", "Nd", "absmag",
   "teff_err", "logg_err", "M_err", "alpha_err", "C_err", "C1_err",
   "N_err", "O_err", "Na_err", "Mg_err", "Al_err", "Si_err", "P_err",
   "S_err", "K_err", "Ca_err", "Ti_err", "Ti2_err", "V_err", "Cr_err",
   "Mn_err", "Fe_err", "Ni_err", "Cu_err", "Ge_err", "Rb_err", "Y_err",
   "Nd_err", "absmag_err"]

/-! ## Concrete fixtures used by witnesses and counterexamples -/

/-- A cache state in which every file is present, the manifest file exists,
and no manifest entry is found for any file (so every cached file is
accepted, mirroring the source's `len(file_hash) != 0` escape). -/
def fsAllCached : GaiaFS :=
  { present := fun _ => true, diskHash := fun _ => 0, netHash := fun _ => 0,
    manifest := fun _ => none, manifestPresent := true }

/-- A fresh cache: the manifest file exists (with an entry for every file)
but none of the catalog files do. -/
def fsFresh : GaiaFS :=
  { present := fun _ => false, diskHash := fun _ => 0, netHash := fun _ => 7,
    manifest := fun _ => some 7, manifestPresent := true }

/-- The compiler configuration with both toggleable criteria disabled and
every other setting at its default. -/
def cfgNoFlags : H5Config :=
  { defaultH5Config with starflagcut := false, aspcapflagcut := false }

/-- A catalog row that passes every default numeric cut except the
always-applied `logg != -9999` sentinel exclusion. -/
def rowBadLogg : AllStarRow :=
  { ra := 10, dec := 20, snr := 300, vscatter := 0, kmag := 10,
    starflag := 0, aspcapflag := 0, location_id := 2, nvisits := 1,
    param := fun j => if j = 1 then -9999 else 5000,
    param_cov := fun _ => 1, xh := fun _ => 0, xh_err := fun _ => 1 }

/-- A catalog row used by the multi-visit witness. -/
def rowW : AllStarRow :=
  { ra := 1, dec := 2, snr := 3, vscatter := 0, kmag := 4,
    starflag := 0, aspcapflag := 0, location_id := 5, nvisits := 3,
    param := fun j => (j : ℚ) + 10, param_cov := fun j => (j : ℚ) + 20,
    xh := fun j => (j : ℚ) + 30, xh_err := fun j => (j : ℚ) + 40 }

/-- A retrieval outcome for a star whose apstar header reports 3 visits and
whose retrieval raised no warning. -/
def sdW : SpectraFetch :=
  { warning := false, nvisits_header := 3,
    rows := List.replicate 4 [1, 2], err_rows := List.replicate 4 [3, 4] }

/-! ## Helper lemmas -/

/-- Intersecting two `np.where` index sets over the same range is the index
set of the conjunction. -/
theorem idxIntersect_whereIdx (n : Nat) (p q : Nat → Bool) :
    idxIntersect (whereIdx n p) (whereIdx n q) = whereIdx n (fun i => p i && q i) := by
  unfold idxIntersect whereIdx
  rw [List.filter_filter]
  refine List.filter_congr ?_
  intro a ha
  have hm : a ∈ List.range n := ha
  cases hq : q a <;> cases hp : p a <;>
    simp [List.contains, List.elem_iff, List.mem_filter, hm, hp, hq]

/-- The full index range is the `np.where` of the trivially true mask. -/
theorem range_eq_whereIdx_true (n : Nat) : List.range n = whereIdx n (fun _ => true) := by
  unfold whereIdx
  rw [List.filter_true]

/-- Selecting the rows of `l` at the `np.where` indices of a per-row mask is
`List.filter` of that mask. -/
theorem filter_range_map_getD {α : Type} (l : List α) (d : α) (p : α → Bool) :
    ((List.range l.length).filter (fun i => p (l.getD i d))).map (fun i => l.getD i d)
      = l.filter p := by
  induction l with
  | nil => simp
  | cons a t ih =>
    have hcomp1 : ((fun i => p ((a :: t).getD i d)) ∘ Nat.succ) = fun i => p (t.getD i d) := by
      funext i; simp
    have hcomp2 : ((fun i => (a :: t).getD i d) ∘ Nat.succ) = fun i => t.getD i d := by
      funext i; simp
    rw [List.length_cons, List.range_succ_eq_map, List.filter_cons]
    simp only [List.getD_cons_zero]
    by_cases hp : p a
    · rw [if_pos hp, List.map_cons, List.filter_map, List.map_map, hcomp1, hcomp2,
        List.filter_cons_of_pos hp, ih, List.getD_cons_zero]
    · rw [if_neg hp, List.filter_map, List.map_map, hcomp1, hcomp2,
        List.filter_cons_of_neg hp, ih]

/-- A pointwise-stronger mask filters to a list at most as long. -/
theorem length_filter_mono {α : Type} {p q : α → Bool} (l : List α)
    (h : ∀ a, p a = true → q a = true) :
    (l.filter p).length ≤ (l.filter q).length :=
  (List.monotone_filter_right l h).length_le

/-- Characterization of the quality filter: the chain of
`np.intersect1d` calls computes the single `np.where` of the conjunction of
all eleven masks, with a disabled toggle contributing the true mask. -/
theorem filter_apogeeid_list_eq (cfg : H5Config) (cat : List AllStarRow) :
    filter_apogeeid_list cfg cat = whereIdx cat.length (fun i =>
      (((((((((((if cfg.starflagcut then ((cat.getD i default).starflag == 0) else true) &&
        (if cfg.aspcapflagcut then ((cat.getD i default).aspcapflag == 0) else true)) &&
        decide (cfg.teff_low ≤ (cat.getD i default).param 0)) &&
        decide ((cat.getD i default).vscatter < cfg.vscattercut)) &&
        decide ((cat.getD i default).xh 17 > cfg.ironlow)) &&
        decide ((cat.getD i default).param 1 ≠ -9999)) &&
        decide ((cat.getD i default).snr > cfg.SNR_low)) &&
        decide ((cat.getD i default).snr < cfg.SNR_high)) &&
        decide ((cat.getD i default).location_id > 1)) &&
        decide (cfg.teff_high ≥ (cat.getD i default).param 0)) &&
        decide ((cat.getD i default).kmag ≠ -9999))) := by
  unfold filter_apogeeid_list
  cases hs : cfg.starflagcut <;> cases ha : cfg.aspcapflagcut <;>
    simp only [if_true, if_false, Bool.false_eq_true, range_eq_whereIdx_true,
      idxIntersect_whereIdx]

/-- A loop run that returns `fulllist` has appended every remaining file
name, whatever the cache state did along the way. -/
theorem dlLoop_ok (bug : Bool) (restart : GaiaFS → DlResult) (flag : Option Nat) :
    ∀ (rem : List String) (s : LoopState) (l : List String),
      (dlLoop bug restart flag rem s).1 = .ok l → l = s.acc ++ rem := by
  intro rem
  induction rem with
  | nil =>
    intro s l h
    simp only [dlLoop] at h
    simpa using h.symm
  | cons fname rest ih =>
    intro s l h
    rw [dlLoop] at h
    dsimp only at h
    repeat' split at h
    all_goals
      first
        | (exact by simpa using ih _ _ h)
        | simp at h

/-! ## C1: truncation assigns the error columns from the value columns -/

/-- C1: in `H5Compiler.compile`, at truncation time — after the star loop
and before any cross-match step — every error-value array (`teff_err`,
`logg_err`, `MH_err`, `alpha_M_err`, the 24 elemental `_err` arrays, and
`absmag_err`) is assigned from the corresponding non-error value array
truncated to the written row count, so each of these error columns equals
the matching value column rather than the error buffer populated during the
loop. -/
theorem truncation_error_columns_equal_value_columns
    (continuum : Bool) (stars : List (AllStarRow × SpectraFetch)) :
    let r := truncateBuffers (compileLoop continuum stars)
    r.teff_err = r.teff ∧ r.logg_err = r.logg ∧ r.MH_err = r.MH ∧
    r.alpha_M_err = r.alpha_M ∧ r.C_err = r.C ∧ r.C1_err = r.C1 ∧
    r.N_err = r.N ∧ r.O_err = r.O ∧ r.Na_err = r.Na ∧ r.Mg_err = r.Mg ∧
    r.Al_err = r.Al ∧ r.Si_err = r.Si ∧ r.P_err = r.P ∧ r.S_err = r.S ∧
    r.K_err = r.K ∧ r.Ca_err = r.Ca ∧ r.Ti_err = r.Ti ∧ r.Ti2_err = r.Ti2 ∧
    r.V_err = r.V ∧ r.Cr_err = r.Cr ∧ r.Mn_err = r.Mn ∧ r.Fe_err = r.Fe ∧
    r.Ni_err = r.Ni ∧ r.Cu_err = r.Cu ∧ r.Ge_err = r.Ge ∧ r.Rb_err = r.Rb ∧
    r.Y_err = r.Y ∧ r.Nd_err = r.Nd ∧ r.absmag_err = r.absmag := by
  refine ⟨?_, ?_, ?_, ?_, ?_, ?_, ?_, ?_, ?_, ?_, ?_, ?_, ?_, ?_, ?_, ?_,
    ?_, ?_, ?_, ?_, ?_, ?_, ?_, ?_, ?_, ?_, ?_, ?_, ?_⟩ <;>
    simp [truncateBuffers, truncateErrs, truncateValues, List.take_take]

/-! ## C2: archive completeness by mode -/

/-- C2 counterexample: with `spectra_only` false the archive-write step
creates 65 named datasets, not the 62 the claim states. -/
theorem archive_dataset_count_is_65_not_62 :
    ((archiveDatasets false initBuffers []).map Prod.fst).length = 65 ∧
    ((archiveDatasets false initBuffers []).map Prod.fst).length ≠ 62 :=
  ⟨rfl, by decide⟩

/-- C2 (amended): for every run reaching the archive-write step,
`spectra_only = true` writes exactly the 4 unconditional datasets
(`spectra`, `spectra_err`, `in_flag`, `index`) and no others, and
`spectra_only = false` writes exactly the 65 named datasets — the 4
unconditional ones plus `SNR`, `RA`, `DEC`, the 29 scalar quantities
(the 28 stellar/elemental quantities and `absmag`) and their 29 `_err`
counterparts. -/
theorem archive_datasets_by_mode (r : H5Buffers) (indices : List Nat) :
    (archiveDatasets true r indices).map Prod.fst = unconditionalDatasetNames ∧
    (archiveDatasets false r indices).map Prod.fst = allDatasetNames ∧
    allDatasetNames.length = 65 :=
  ⟨rfl, rfl, rfl⟩

/-! ## C3: quality-filter monotonicity and the no-criteria case -/

/-- C3 counterexample: with both toggleable criteria disabled, the filter
does not return all row indices — a one-row catalog whose `logg` is the
−9999 sentinel (passing every other default cut) filters to the empty index
set, because nine masks are applied unconditionally. -/
theorem filter_no_toggles_not_all_indices :
    filter_apogeeid_list cfgNoFlags [rowBadLogg] ≠ List.range 1 := by
  decide

/-- C3 (amended): `filter_apogeeid_list` is monotone in the two toggleable
criteria — enabling `starflagcut` (or `aspcapflagcut`) with everything else
fixed never increases the filtered index-set size — and with both toggles
disabled it returns exactly the rows passing the nine always-applied masks
(all row indices only when every row passes those masks, not in general). -/
theorem filter_monotone_and_no_toggle_case (cfg : H5Config) (cat : List AllStarRow) :
    ((filter_apogeeid_list { cfg with starflagcut := true } cat).length ≤
      (filter_apogeeid_list { cfg with starflagcut := false } cat).length) ∧
    ((filter_apogeeid_list { cfg with aspcapflagcut := true } cat).length ≤
      (filter_apogeeid_list { cfg with aspcapflagcut := false } cat).length) ∧
    (filter_apogeeid_list { cfg with starflagcut := false, aspcapflagcut := false } cat =
      whereIdx cat.length (alwaysOnMask cfg cat)) := by
  refine ⟨?_, ?_, ?_⟩
  · rw [filter_apogeeid_list_eq, filter_apogeeid_list_eq]
    apply length_filter_mono
    intro i h
    simp only [Bool.and_eq_true] at h ⊢
    simp only [if_true, if_false] at h ⊢
    tauto
  · rw [filter_apogeeid_list_eq, filter_apogeeid_list_eq]
    apply length_filter_mono
    intro i h
    simp only [Bool.and_eq_true] at h ⊢
    simp only [if_true, if_false] at h ⊢
    tauto
  · rw [filter_apogeeid_list_eq]
    unfold whereIdx alwaysOnMask
    refine List.filter_congr ?_
    intro i _
    simp only [if_false]
    cases h1 : decide (cfg.teff_low ≤ (cat.getD i default).param 0) <;>
      simp [h1, Bool.and_assoc, Bool.and_comm, Bool.and_left_comm]

/-! ## C4: sentinel exclusion in mean_squared_error -/

/-- C4: for a single sample with `y_true = [MAGIC_NUMBER, 2]`, the loss is
exactly 0 against `y_pred = [5, 2]` (the sentinel slot contributes zero,
the real label matches, and the correction factor 2 leaves 0 unchanged) and
exactly 1 against `y_pred = [5, 3]` (mean of `[0, 1]` times correction
factor 2). -/
theorem mean_squared_error_sentinel_cases :
    mean_squared_error [MAGIC_NUMBER, 2] [5, 2] = 0 ∧
    mean_squared_error [MAGIC_NUMBER, 2] [5, 3] = 1 := by
  constructor <;>
    norm_num [mean_squared_error, listMean, magic_correction_term, MAGIC_NUMBER]

/-! ## C5: the TGAS file list -/

/-- C5 counterexample: `tgas(dr=1)` does not return the 16 file paths
regardless of cache state — on a fresh cache (manifest present, no catalog
files) the very first download branch reads the still-unassigned
`file_hash` variable and the call raises `NameError` instead of
returning. -/
theorem tgas_fresh_cache_raises_instead_of_returning :
    (gaiaTgas 1 fsFresh (some 1) none).1 = .error .nameError ∧
    (gaiaTgas 1 fsFresh (some 1) none).1 ≠ .ok tgasFilenames :=
  ⟨rfl, fun h =>
    Except.noConfusion (h : Except.error PyErr.nameError = Except.ok tgasFilenames)⟩

/-- C5 (amended): whenever `tgas(dr=1)` returns a file list at all — from
any cache state, any redo flag and any restart depth — that list is exactly
the 16 paths `TgasSource_000-000-000.fits` … `TgasSource_000-000-015.fits`
in catalog index order, since each loop iteration appends its file name
whichever branch served it. -/
theorem tgas_ok_result_is_the_16_files_in_order
    (fuel : Nat) (fs : GaiaFS) (flag : Option Nat) (l : List String)
    (h : (gaiaTgas fuel fs (some 1) flag).1 = .ok l) : l = tgasFilenames := by
  unfold gaiaTgas at h
  rw [dlRun.eq_def] at h
  simp only [Option.getD_some, if_true] at h
  cases fuel with
  | zero => simp at h
  | succ fuel1 =>
    have := dlLoop_ok false _ flag tgasFilenames _ l h
    simpa using this

/-- Witness for C5: on an all-cached, checksum-clean state `tgas(dr=1)`
returns, and the theorem forces the returned list to be the 16 names. -/
theorem tgas_ok_result_is_the_16_files_in_order_witness :
    (gaiaTgas 1 fsAllCached (some 1) none).1 = .ok tgasFilenames ∧
    tgasFilenames = tgasFilenames :=
  ⟨rfl, tgas_ok_result_is_the_16_files_in_order 1 fsAllCached none tgasFilenames rfl⟩

/-! ## C6: the tgas_load row filter -/

/-- C6: with `filter=True`, `tgas_load` retains exactly the rows satisfying
`parallax > 0` AND `parallax_error / parallax < 0.2` — the intersection of
the two conditions, no row outside it — and the kept rows appear in their
relative order in the unfiltered file-order concatenation, because the
result is the order-preserving filter of the concatenation. -/
theorem tgas_load_keeps_exactly_the_good_rows (rows : List TgasRow) :
    tgas_load_filtered rows = rows.filter
      (fun r => decide (r.parallax > 0) && decide (r.parallax_error / r.parallax < 1/5)) := by
  unfold tgas_load_filtered
  dsimp only
  rw [idxIntersect_whereIdx]
  unfold whereIdx
  rw [filter_range_map_getD rows default
    (fun r => decide (r.parallax_error / r.parallax < 1/5) && decide (r.parallax > 0))]
  refine List.filter_congr ?_
  intro r _
  exact Bool.and_comm _ _

/-! ## C7: multi-visit block structure -/

/-- C7: in the continuum-normalization path, a star whose retrieval raised
no warning and whose block has `k` rows gets `in_flag = 0` at the block's
first row and `1` at rows 1 … k−1 (for `k = 1` the block is the single
combined row with flag 0), every scalar stellar-quantity column (`RA`,
`DEC`, `SNR`, the `PARAM`-derived and `X_H`-derived quantities and their
errors) is one identical value broadcast across all `k` rows, and the write
cursor advances by `k`. -/
theorem multi_visit_block_flags_and_broadcast
    (st : H5Buffers) (row : AllStarRow) (sd : SpectraFetch) (k : Nat)
    (hw : sd.warning = false) (hk : k = starNVisits true sd) :
    (compileStep true st row sd).individual_flag =
      st.individual_flag ++ ((0 : ℚ) :: List.replicate (k - 1) 1) ∧
    (compileStep true st row sd).RA = st.RA ++ List.replicate k row.ra ∧
    (compileStep true st row sd).DEC = st.DEC ++ List.replicate k row.dec ∧
    (compileStep true st row sd).SNR = st.SNR ++ List.replicate k row.snr ∧
    (compileStep true st row sd).teff = st.teff ++ List.replicate k (row.param 0) ∧
    (compileStep true st row sd).logg = st.logg ++ List.replicate k (row.param 1) ∧
    (compileStep true st row sd).MH = st.MH ++ List.replicate k (row.param 3) ∧
    (compileStep true st row sd).alpha_M = st.alpha_M ++ List.replicate k (row.param 6) ∧
    (compileStep true st row sd).C = st.C ++ List.replicate k (row.xh 0) ∧
    (compileStep true st row sd).C1 = st.C1 ++ List.replicate k (row.xh 1) ∧
    (compileStep true st row sd).N = st.N ++ List.replicate k (row.xh 2) ∧
    (compileStep true st row sd).O = st.O ++ List.replicate k (row.xh 3) ∧
    (compileStep true st row sd).Na = st.Na ++ List.replicate k (row.xh 4) ∧
    (compileStep true st row sd).Mg = st.Mg ++ List.replicate k (row.xh 5) ∧
    (compileStep true st row sd).Al = st.Al ++ List.replicate k (row.xh 6) ∧
    (compileStep true st row sd).Si = st.Si ++ List.replicate k (row.xh 7) ∧
    (compileStep true st row sd).P = st.P ++ List.replicate k (row.xh 8) ∧
    (compileStep true st row sd).S = st.S ++ List.replicate k (row.xh 9) ∧
    (compileStep true st row sd).K = st.K ++ List.replicate k (row.xh 10) ∧
    (compileStep true st row sd).Ca = st.Ca ++ List.replicate k (row.xh 11) ∧
    (compileStep true st row sd).Ti = st.Ti ++ List.replicate k (row.xh 12) ∧
    (compileStep true st row sd).Ti2 = st.Ti2 ++ List.replicate k (row.xh 13) ∧
    (compileStep true st row sd).V = st.V ++ List.replicate k (row.xh 14) ∧
    (compileStep true st row sd).Cr = st.Cr ++ List.replicate k (row.xh 15) ∧
    (compileStep true st row sd).Mn = st.Mn ++ List.replicate k (row.xh 15) ∧
    (compileStep true st row sd).Fe = st.Fe ++ List.replicate k (row.xh 16) ∧
    (compileStep true st row sd).Ni = st.Ni ++ List.replicate k (row.xh 17) ∧
    (compileStep true st row sd).Cu = st.Cu ++ List.replicate k (row.xh 19) ∧
    (compileStep true st row sd).Ge = st.Ge ++ List.replicate k (row.xh 20) ∧
    (compileStep true st row sd).Rb = st.Rb ++ List.replicate k (row.xh 22) ∧
    (compileStep true st row sd).Y = st.Y ++ List.replicate k (row.xh 23) ∧
    (compileStep true st row sd).Nd = st.Nd ++ List.replicate k (row.xh 24) ∧
    (compileStep true st row sd).absmag = st.absmag ++ List.replicate k (-9999) ∧
    (compileStep true st row sd).counter = st.counter + k := by
  subst hk
  cases hn : sd.nvisits_header with
  | zero => simp [compileStep, starNVisits, hw, hn]
  | succ m =>
    cases m with
    | zero => simp [compileStep, starNVisits, hw, hn]
    | succ m2 => simp [compileStep, starNVisits, hw, hn, List.replicate]

/-- Witness for C7: a warning-free star whose apstar header reports 3
visits produces a 4-row block flagged `[0, 1, 1, 1]`. -/
theorem multi_visit_block_flags_and_broadcast_witness :
    sdW.warning = false ∧ (4 : Nat) = starNVisits true sdW ∧
    (compileStep true initBuffers rowW sdW).individual_flag =
      initBuffers.individual_flag ++ ((0 : ℚ) :: List.replicate (4 - 1) 1) := by
  refine ⟨rfl, rfl, ?_⟩
  exact (multi_visit_block_flags_and_broadcast initBuffers rowW sdW 4 rfl rfl).1

/-! ## C8: logsumexp -/

/-- C8: the claim describes the intended numerically stable behaviour —
`log(sum(exp(x − max(x)))) + max(x)`, which on `[1000, 1000]` is the finite
`log 2 + 1000` — but the source's `logsumexp` computes its maximum with
`tf.maximum(x, axis=axis, keepdims=True)`, and `tf.maximum` is the
element-wise binary maximum with no `axis`/`keepdims` parameters, so every
call (in particular on `[1000, 1000]`) raises `TypeError` instead of
producing any value: the code contradicts its own docstring and the spec. -/
theorem logsumexp_raises_typeerror_intended_value_finite :
    logsumexp [(1000 : ℝ), 1000] = .error .typeError ∧
    logsumexpIntended [(1000 : ℝ), 1000] = Real.log 2 + 1000 := by
  constructor
  · rfl
  · unfold logsumexpIntended
    norm_num [Real.exp_zero]

/-! ## C9: unsupported data releases are rejected without side effects -/

/-- C9: `tgas(dr=2)` and `gaia_source(dr=2)` in the Gaia downloader, and
the legacy downloader's two operations with `dr=15`, each raise
`ValueError` immediately: the file system is unchanged and no
`urlretrieve` call is made before failing. -/
theorem unsupported_dr_rejected_without_side_effects (fs : GaiaFS) (fuel : Nat) :
    gaiaTgas fuel fs (some 2) none = (.error .valueError, fs, 0) ∧
    gaiaSource fuel fs (some 2) none = (.error .valueError, fs, 0) ∧
    legacyTgas (some 15) = (.error .valueError, []) ∧
    legacyGaiaSource (some 15) = (.error .valueError, []) := by
  refine ⟨?_, ?_, rfl, rfl⟩
  · unfold gaiaTgas
    rw [dlRun.eq_def]
    simp
  · unfold gaiaSource
    rw [dlRun.eq_def]
    simp

/-! ## C10: the unassigned file_hash in the download branch -/

/-- C10: in `tgas` (and likewise `gaia_source`), the download branch's
post-download checksum comparison reads `file_hash`, which is assigned only
in the cached-file branch; on a fresh cache — manifest present, no catalog
files — the first iteration takes the download branch, performs the one
download, and then fails with the undefined-variable (`NameError`) error at
that comparison instead of completing the loop. -/
theorem download_branch_reads_unassigned_file_hash (fs : GaiaFS) (fuel : Nat)
    (hp : ∀ f, fs.present f = false) (hm : fs.manifestPresent = true) :
    (gaiaTgas (fuel + 1) fs (some 1) none).1 = .error .nameError ∧
    (gaiaTgas (fuel + 1) fs (some 1) none).2.2 = 1 ∧
    (gaiaSource (fuel + 1) fs (some 1) none).1 = .error .nameError ∧
    (gaiaSource (fuel + 1) fs (some 1) none).2.2 = 1 := by
  obtain ⟨f0, rest0, he0⟩ : ∃ f r, tgasFilenames = f :: r := ⟨_, _, rfl⟩
  obtain ⟨g0, rest1, he1⟩ : ∃ f r, gaiaSourceFilenames = f :: r := ⟨_, _, rfl⟩
  unfold gaiaTgas gaiaSource
  rw [dlRun.eq_def, dlRun.eq_def]
  simp only [Option.getD_some, if_true, hm, he0, he1]
  rw [dlLoop, dlLoop]
  rw [if_neg (by simp [hp f0]), if_pos (Or.inl (hp f0))]
  rw [if_neg (by simp [hp g0]), if_pos (Or.inl (hp g0))]
  simp

/-- Witness for C10: the fresh cache `fsFresh` satisfies the hypotheses and
`tgas(dr=1)` indeed dies with the undefined-variable error. -/
theorem download_branch_reads_unassigned_file_hash_witness :
    (∀ f, fsFresh.present f = false) ∧ fsFresh.manifestPresent = true ∧
    (gaiaTgas 1 fsFresh (some 1) none).1 = .error .nameError := by
  refine ⟨fun f => rfl, rfl, ?_⟩
  exact (download_branch_reads_unassigned_file_hash fsFresh 0 (fun f => rfl) rfl).1
